import Mathlib

/-!
Verification of the `bayesian-inference` repository (bnn_geotech.py,
src/bnn_inference/predict.py, src/bnn_inference/tools/console.py).

The Python code is shallowly embedded: machine floats are modelled as exact
rationals (ℚ), numpy/torch arrays as lists or `Fin`-indexed functions, and
the stochastic draws of the Bayesian layers as an explicit sampling function
passed to each routine.  Square roots (needed by `np.std` / `torch.std`) are
not exactly representable in ℚ, so the standard deviation is modelled by an
abstract function `S : ℚ → ℚ` together with the hypothesis that `S` behaves
as a square root on the variances actually used (`0 ≤ S v` and `(S v)^2 = v`).
-/

/-! ## String utilities

pandas' `df.filter(regex=pat)` keeps the columns whose name contains a match
of `pat`; for the literal patterns used by this repository (no regex
metacharacters) that is plain substring containment. -/

/-- `listHasInit pat s` is true when `pat` is an initial segment of `s`. -/
def listHasInit : List Char → List Char → Bool
  | [], _ => true
  | _ :: _, [] => false
  | p :: ps, c :: cs => p = c && listHasInit ps cs

/-- `listHasSub pat s` is true when `pat` occurs as a contiguous sublist of `s`. -/
def listHasSub (pat : List Char) : List Char → Bool
  | [] => listHasInit pat []
  | c :: cs => listHasInit pat (c :: cs) || listHasSub pat cs

/-- Substring containment on strings, modelling `re.search` with a literal
pattern (as used by `df.filter(regex=...)` in this repository). -/
def strContains (s pat : String) : Bool :=
  listHasSub pat.toList s.toList

/-! ## Console model (src/bnn_inference/tools/console.py)

`Console.info`, `Console.warn` and `Console.error` only `print`;
`Console.quit` prints and then calls `sys.exit()`.  Each console call is
modelled as the message it prints; whether the process terminates is tracked
separately by the callers. -/

def bcolorsFail : String := "\x1b[91m"

def bcolorsOkblue : String := "\x1b[94m"

def bcolorsEndc : String := "\x1b[0m"

/-- Python's `" ".join(map(str, args))`. -/
def joinSpace (args : List String) : String :=
  String.intercalate " " args

/-- Message printed by `Console.info(*args)`. -/
def consoleInfoMsg (args : List String) : String :=
  bcolorsOkblue ++ " INFO ▸ " ++ bcolorsEndc ++ joinSpace args

/-- Message printed by `Console.error(*args)`.  `Console.error` only prints;
it does not stop execution. -/
def consoleErrorMsg (args : List String) : String :=
  bcolorsFail ++ " ERROR ▸ " ++ bcolorsEndc ++ joinSpace args

/-- Final message printed by `Console.quit(*args)` before `sys.exit()`. -/
def consoleQuitMsg (args : List String) : String :=
  bcolorsFail ++ "**** " ++ bcolorsEndc ++ "Reason: " ++ joinSpace args

/-! ## Input-file checks of `predict_impl` (src/bnn_inference/predict.py)

The routine first checks the latent CSV (`Console.info` when present,
`Console.error` when missing — which merely prints) and then the pretrained
network file (`Console.info` when present, `Console.quit` when missing —
which exits).  The result collects the printed messages and a flag that is
true exactly when the process terminated during the checks. -/

structure CheckOutcome where
  messages : List String
  terminated : Bool
deriving DecidableEq

/-- The two file-existence checks at the top of `predict_impl`, given whether
each file exists on disk. -/
def predictChecks (latentExists networkExists : Bool)
    (latent_csv output_network_filename : String) : CheckOutcome :=
  let latentMsg :=
    if latentExists then
      consoleInfoMsg ["Latent input file: ", latent_csv]
    else
      consoleErrorMsg
        ["Latent input file [" ++ latent_csv
          ++ "] not found. Please check the provided input path (-l, --latent)"]
  if networkExists then
    { messages :=
        [latentMsg,
         consoleInfoMsg
           ["Pre-trained network file [", output_network_filename, "] found"]],
      terminated := false }
  else
    { messages :=
        [latentMsg,
         consoleQuitMsg ["No pre-trained network found at: ",
           output_network_filename]],
      terminated := true }

/-! ## Configuration defaults of `predict_impl`

Each configuration value is tested with Python truthiness (`if num_samples:`
etc.), so `0`, `0.0`, `None` and `""` all select the built-in default. -/

/-- `k_samples`: `num_samples` when truthy, else 20.  `Option ℕ` models a
Python value that may be `None`; `some 0` and `none` are both falsy. -/
def resolveKSamples (num_samples : Option ℕ) : ℕ :=
  match num_samples with
  | none => 20
  | some n => if n = 0 then 20 else n

/-- `output_key`: `target_key` when non-empty, else `"predicted"`. -/
def resolveOutputKey (target_key : String) : String :=
  if target_key = "" then "predicted" else target_key

/-- `input_key`: `latent_key` when non-empty, else `"latent_"`. -/
def resolveInputKey (latent_key : String) : String :=
  if latent_key = "" then "latent_" else latent_key

/-- `scaling_factor`: `scale_factor` when truthy (non-zero), else `1.0`. -/
def resolveScalingFactor (scale_factor : ℚ) : ℚ :=
  if scale_factor = 0 then 1 else scale_factor

/-- `output_csv`: kept when non-empty, otherwise a timestamped default name
built from `datetime.now()` (abstracted as `dateStr`). -/
def resolveOutputCsv (dateStr output_csv : String) : String :=
  if output_csv = "" then dateStr ++ "_bnn_predictions.csv" else output_csv

/-! ## BayesianRegressor (bnn_geotech.py)

A Bayesian linear layer samples a weight matrix and bias on every call; the
model takes the sampled parameters as explicit data, so one
`BayesianRegressor` value is one stochastic draw of the network.  The hidden
width is 128, as in `BayesianLinear(input_dim, 128)` /
`BayesianLinear(128, output_dim)`. -/

/-- One application of a (sampled) Bayesian linear layer: the affine map
given by the drawn weight matrix `W` and bias `b`. -/
def bayesianLinear {n m : ℕ} (W : Fin m → Fin n → ℚ) (b : Fin m → ℚ)
    (x : Fin n → ℚ) : Fin m → ℚ :=
  fun i => (∑ j, W i j * x j) + b i

/-- The sampled parameters of `BayesianRegressor(input_dim, output_dim)`:
layer `blinear1 : input_dim → 128` and layer `blinear2 : 128 → output_dim`. -/
structure BayesianRegressor (input_dim output_dim : ℕ) where
  w1 : Fin 128 → Fin input_dim → ℚ
  b1 : Fin 128 → ℚ
  w2 : Fin output_dim → Fin 128 → ℚ
  b2 : Fin output_dim → ℚ

/-- `BayesianRegressor.forward`: `x_ = blinear1(x); x_ = sigmoid1(x_);
return blinear2(x_)`.  The sigmoid activation (a primitive of the tensor
library) is an explicit parameter `sigma`. -/
def BayesianRegressor.forward {input_dim output_dim : ℕ}
    (net : BayesianRegressor input_dim output_dim) (sigma : ℚ → ℚ)
    (x : Fin input_dim → ℚ) : Fin output_dim → ℚ :=
  let x1 := bayesianLinear net.w1 net.b1 x
  let x2 := fun h => sigma (x1 h)
  bayesianLinear net.w2 net.b2 x2

/-! ## Monte-Carlo prediction loop of `predict_impl`

For every input row the code draws `k_samples` stochastic passes, then
appends `np.mean(predictions, axis=0) * scaling_factor` to `predicted` and
`np.std(predictions, axis=0) * scaling_factor` to `uncertainty`.  `np.mean`
and `np.std` act elementwise over the sample axis; `np.std` uses the
population formula (divisor `K`).  `draw r n` is the value of the `n`-th
stochastic forward pass of the regressor on input row `r`; `S` models the
square root inside `np.std`. -/

/-- The list `predictions` built by the inner loop for row `r`:
one entry per `n in range(k_samples)`. -/
def rowSamples {m : ℕ} (draw : ℕ → ℕ → Fin m → ℚ) (k r : ℕ) :
    List (Fin m → ℚ) :=
  (List.range k).map (fun n => draw r n)

/-- `np.mean(l, axis=0)` at output coordinate `i`. -/
def npMean {m : ℕ} (l : List (Fin m → ℚ)) (i : Fin m) : ℚ :=
  (l.map (fun v => v i)).sum / l.length

/-- The population variance used by `np.std(l, axis=0)` (divisor `len(l)`). -/
def npVar {m : ℕ} (l : List (Fin m → ℚ)) (i : Fin m) : ℚ :=
  (l.map (fun v => (v i - npMean l i) ^ 2)).sum / l.length

/-- `np.std(l, axis=0)` at coordinate `i`, with `S` standing for the square
root computed by numpy. -/
def npStd {m : ℕ} (S : ℚ → ℚ) (l : List (Fin m → ℚ)) (i : Fin m) : ℚ :=
  S (npVar l i)

/-- The `predicted` list built by the prediction loop: for each row
`r in range(rows)`, the sample mean of its `k` passes times the scaling
factor. -/
def predictedRows {m : ℕ} (draw : ℕ → ℕ → Fin m → ℚ) (k rows : ℕ)
    (scaling_factor : ℚ) : List (Fin m → ℚ) :=
  (List.range rows).map (fun r => fun i =>
    npMean (rowSamples draw k r) i * scaling_factor)

/-- The `uncertainty` list built by the prediction loop: for each row,
the sample standard deviation of its `k` passes times the scaling factor. -/
def uncertaintyRows {m : ℕ} (S : ℚ → ℚ) (draw : ℕ → ℕ → Fin m → ℚ)
    (k rows : ℕ) (scaling_factor : ℚ) : List (Fin m → ℚ) :=
  (List.range rows).map (fun r => fun i =>
    npStd S (rowSamples draw k r) i * scaling_factor)

/-! ## `evaluate_regression` (bnn_geotech.py)

`preds = [regressor(X) for i in range(samples)]`, elementwise mean and
(unbiased, Bessel-corrected — torch default) standard deviation, confidence
bounds `mean ± std_multiplier * std`, and the three coverage fractions.  The
elements of the flattened prediction tensor are indexed by `Fin d`;
`draw n i` is element `i` of the `n`-th stochastic pass `regressor(X)`. -/

/-- The list `preds` of `samples` stochastic forward passes. -/
def evalPreds {d : ℕ} (draw : ℕ → Fin d → ℚ) (samples : ℕ) :
    List (Fin d → ℚ) :=
  (List.range samples).map draw

/-- The unbiased variance used by `torch.std` (divisor `len(l) - 1`). -/
def torchVar {d : ℕ} (l : List (Fin d → ℚ)) (i : Fin d) : ℚ :=
  (l.map (fun v => (v i - npMean l i) ^ 2)).sum / ((l.length : ℚ) - 1)

/-- `ci_upper = means + std_multiplier * stds` at element `i`. -/
def ciUpper {d : ℕ} (S : ℚ → ℚ) (draw : ℕ → Fin d → ℚ)
    (samples : ℕ) (std_multiplier : ℚ) (i : Fin d) : ℚ :=
  npMean (evalPreds draw samples) i
    + std_multiplier * S (torchVar (evalPreds draw samples) i)

/-- `ci_lower = means - std_multiplier * stds` at element `i`. -/
def ciLower {d : ℕ} (S : ℚ → ℚ) (draw : ℕ → Fin d → ℚ)
    (samples : ℕ) (std_multiplier : ℚ) (i : Fin d) : ℚ :=
  npMean (evalPreds draw samples) i
    - std_multiplier * S (torchVar (evalPreds draw samples) i)

/-- `.float().mean()` of a boolean tensor: the number of true elements over
the number of elements. -/
def boolMean {d : ℕ} (b : Fin d → Bool) : ℚ :=
  (∑ i, if b i then (1 : ℚ) else 0) / d

/-- `evaluate_regression(regressor, X, y, samples, std_multiplier)`:
returns `(ic_acc, (ci_upper >= y).float().mean(), (ci_lower <= y).float().mean())`
where `ic_acc` is the mean of the elementwise product of the two boolean
tensors `(ci_lower <= y)` and `(ci_upper >= y)`. -/
def evaluate_regression {d : ℕ} (S : ℚ → ℚ) (draw : ℕ → Fin d → ℚ)
    (y : Fin d → ℚ) (samples : ℕ) (std_multiplier : ℚ) : ℚ × ℚ × ℚ :=
  (boolMean (fun i =>
      decide (ciLower S draw samples std_multiplier i ≤ y i)
        && decide (y i ≤ ciUpper S draw samples std_multiplier i)),
   boolMean (fun i => decide (y i ≤ ciUpper S draw samples std_multiplier i)),
   boolMean (fun i => decide (ciLower S draw samples std_multiplier i ≤ y i)))

/-! ## `load_dataset` (bnn_geotech.py)

Reads the CSV into a dataframe, filters the columns whose name matches the
latent prefix, counts them — and then `return 1, n_latents`.  The announced
data-validation step (removal of NaN rows) is absent and the first returned
value is the integer literal `1`, not a dataframe.  A dataframe is modelled
as its column names plus rows of optional cells (`none` = NaN). -/

structure DataFrame where
  cols : List String
  rows : List (List (Option ℚ))
deriving DecidableEq

/-- `load_dataset(filename, ...)` after `pd.read_csv`: filters the columns
matching `latent_name_affix` (pandas `df.filter(regex=...)`), counts them,
and returns the pair `(1, n_latents)` exactly as the source does. -/
def load_dataset (df : DataFrame) (latent_name_affix : String) : ℕ × ℕ :=
  let df_latent_cols := df.cols.filter (fun c => strContains c latent_name_affix)
  let n_latents := df_latent_cols.length
  (1, n_latents)

/-! ## Output dataframe assembly of `predict_impl`

The loaded dataframe `df` is copied, `reset_index(drop=False)` turns its
index into an ordinary leading column, the prediction and uncertainty
dataframes (columns `pred_<key>_<i>` / `std_<key>_<i>`, `i < output_size`)
are concatenated on the right, and finally every column whose name matches
the regex `input_key` is dropped.  A dataframe is modelled column-wise: a
list of named columns carrying their values, in order. -/

structure DCol (α : Type) where
  name : String
  values : List α
deriving DecidableEq

/-- Name of the `i`-th prediction column: `"pred_" + output_key + "_" + str(i)`. -/
def predColName (output_key : String) (i : ℕ) : String :=
  "pred_" ++ output_key ++ "_" ++ toString i

/-- Name of the `i`-th uncertainty column: `"std_" + output_key + "_" + str(i)`. -/
def stdColName (output_key : String) (i : ℕ) : String :=
  "std_" ++ output_key ++ "_" ++ toString i

/-- The columns of the prediction dataframe `_pdf`. -/
def predCols {α : Type} (output_key : String) (predicted : ℕ → List α)
    (output_size : ℕ) : List (DCol α) :=
  (List.range output_size).map (fun i => ⟨predColName output_key i, predicted i⟩)

/-- The columns of the uncertainty dataframe `_udf`. -/
def stdCols {α : Type} (output_key : String) (uncertainty : ℕ → List α)
    (output_size : ℕ) : List (DCol α) :=
  (List.range output_size).map (fun i => ⟨stdColName output_key i, uncertainty i⟩)

/-- `output_df.drop(list(output_df.filter(regex=input_key)), axis=1)`:
removes every column whose name contains `input_key`. -/
def dropMatching {α : Type} (input_key : String) (cols : List (DCol α)) :
    List (DCol α) :=
  cols.filter (fun c => !(strContains c.name input_key))

/-- The columns of the exported dataframe: the input dataframe's columns
(`inputCols`, with the former index as leading column after `reset_index`),
then the prediction and uncertainty columns, with every column matching
`input_key` dropped. -/
def outputFrame {α : Type} (input_key output_key : String)
    (inputCols : List (DCol α)) (predicted uncertainty : ℕ → List α)
    (output_size : ℕ) : List (DCol α) :=
  dropMatching input_key
    (inputCols ++ predCols output_key predicted output_size
      ++ stdCols output_key uncertainty output_size)

/-! ## Checkpoint and regressor construction in `predict_impl`

`torch.load` yields a dictionary with training metadata and
`model_state_dict`; the output size is the length of
`model_state_dict["linear_output.weight"]`, and the regressor is built as
`BayesianRegressor(input_dim=n_latents, output_dim=output_size, ...)` in
both the CUDA and the CPU branch.

`PredictiveEngine.loadData` and `tools/bnn_model.BayesianRegressor` are not
under src/; their relevant behaviour is modelled from the spec below. -/

structure ModelCheckpoint where
  epochs : ℕ
  batch_size : ℕ
  learning_rate : ℚ
  lambda_fit_loss : ℚ
  elbo_kld : ℚ
  linear_output_weight : List (List ℚ)
deriving DecidableEq

/-- `output_size = len(trained_network["model_state_dict"]["linear_output.weight"])`. -/
def checkpointOutputSize (ck : ModelCheckpoint) : ℕ :=
  ck.linear_output_weight.length

/-- Modelled from the spec: `PredictiveEngine.loadData` is not under src/;
per the spec's dataset loader it "isolates latent-feature columns by name
prefix", so `n_latents` is the number of columns whose name starts with the
given affix.  `predict_impl` passes the affix `"latent_"` (hardcoded at the
call site). -/
def loadDataLatentCount (cols : List String) (key_affix : String) : ℕ :=
  (cols.filter (fun c => c.startsWith key_affix)).length

/-- The `(input_dim, output_dim)` pair the regressor is constructed with in
`predict_impl`, for either value of `torch.cuda.is_available()`. -/
def builtRegressorDims (cudaAvailable : Bool) (csvCols : List String)
    (ck : ModelCheckpoint) : ℕ × ℕ :=
  let n_latents := loadDataLatentCount csvCols "latent_"
  let output_size := checkpointOutputSize ck
  if cudaAvailable then (n_latents, output_size) else (n_latents, output_size)

/-! ## Training loop (bnn_geotech.py `main`)

For each mini-batch: `optimizer.zero_grad()`, `loss = regressor.sample_elbo(
inputs, labels, criterion, sample_nbr=3, complexity_cost_weight=1/X_train.shape[0])`,
`loss.backward()`, `optimizer.step()`, `iteration += 1`.

`sample_elbo` lives in the external blitz library (out of scope per the
spec).  Modelled from the spec: "sampled ELBO loss (multiple stochastic
forward passes averaged, weighted by a complexity-cost coefficient scaled by
training-set size)" — the average over `sample_nbr` stochastic passes of the
fit loss plus the weighted KL complexity cost. -/

/-- Modelled from the spec: blitz's `sample_elbo`.  `fitLoss n` is the
criterion value of the `n`-th stochastic forward pass on the batch, `kl` the
KL complexity cost, `weight` the complexity-cost weight. -/
def sample_elbo (fitLoss : ℕ → ℚ) (kl weight : ℚ) (sample_nbr : ℕ) : ℚ :=
  ((List.range sample_nbr).map (fun n => fitLoss n + weight * kl)).sum / sample_nbr

/-- The loss computed for one mini-batch `b`: `sample_elbo` with
`sample_nbr=3` and `complexity_cost_weight = 1/X_train.shape[0]`. -/
def batchLoss {B : Type} (fitLoss : B → ℕ → ℚ) (kl : ℚ) (nTrain : ℕ)
    (b : B) : ℚ :=
  sample_elbo (fitLoss b) kl (1 / (nTrain : ℚ)) 3

/-- Optimizer/iteration state of the training loop. -/
structure TrainState (P : Type) where
  params : P
  iteration : ℕ
deriving DecidableEq

/-- One mini-batch step: backpropagate `batchLoss` and apply one optimizer
update (`upd`, abstracting `optimizer.step()` on the gradients of the loss),
incrementing the iteration counter once. -/
def trainBatchStep {P B : Type} (upd : P → ℚ → P) (fitLoss : B → ℕ → ℚ)
    (kl : ℚ) (nTrain : ℕ) (s : TrainState P) (b : B) : TrainState P :=
  { params := upd s.params (batchLoss fitLoss kl nTrain b),
    iteration := s.iteration + 1 }

/-- The inner loop over the batches of one epoch. -/
def trainLoop {P B : Type} (upd : P → ℚ → P) (fitLoss : B → ℕ → ℚ)
    (kl : ℚ) (nTrain : ℕ) (batches : List B) (s : TrainState P) : TrainState P :=
  batches.foldl (trainBatchStep upd fitLoss kl nTrain) s

/-! ## Theorems -/

/-- C2: For every input `x`, the forward pass of `BayesianRegressor` is the
composition of exactly two Bayesian fully-connected layers with a sigmoid in
between — `blinear2(sigmoid(blinear1(x)))` — where `blinear1` maps the input
dimension to the hidden width (128) and `blinear2` maps the hidden width to
the output dimension; spelled out, each output coordinate `o` is the affine
combination over the 128 hidden sigmoid activations. -/
theorem c2_forward_is_two_layer_sigmoid_composition :
    ∀ (n_in n_out : ℕ) (net : BayesianRegressor n_in n_out) (sigma : ℚ → ℚ)
      (x : Fin n_in → ℚ),
      net.forward sigma x
        = bayesianLinear net.w2 net.b2
            (fun h : Fin 128 => sigma (bayesianLinear net.w1 net.b1 x h))
      ∧ ∀ o : Fin n_out,
          net.forward sigma x o
            = (∑ h : Fin 128,
                net.w2 o h * sigma ((∑ j, net.w1 h j * x j) + net.b1 h))
              + net.b2 o := by
  intro n_in n_out net sigma x
  exact ⟨rfl, fun o => rfl⟩

/-- C3 counterexample: with the latent input CSV missing but the pretrained
network present, `predict_impl` prints the descriptive error message via
`Console.error` (which only prints) and does **not** terminate: execution
continues past the check, contradicting the claim that a missing latent
input CSV causes immediate process termination. -/
theorem c3_counterexample :
    (predictChecks false true "latent.csv" "net.pth").messages.head?
      = some (consoleErrorMsg
          ["Latent input file [latent.csv] not found. Please check the provided input path (-l, --latent)"])
    ∧ ¬ ((predictChecks false true "latent.csv" "net.pth").terminated = true) := by
  exact ⟨by decide, by decide⟩

/-- C3 amended: a missing pretrained network file causes a descriptive
console message followed by immediate process termination (`Console.quit`),
for either state of the latent file; a missing latent input CSV causes a
descriptive console error message, but execution continues past the check
(`Console.error` only prints). -/
theorem c3_missing_network_fatal_missing_latent_not :
    ∀ (lex : Bool) (lc nf : String),
      ((predictChecks lex false lc nf).terminated = true
        ∧ consoleQuitMsg ["No pre-trained network found at: ", nf]
            ∈ (predictChecks lex false lc nf).messages)
      ∧ ((predictChecks false true lc nf).terminated = false
        ∧ consoleErrorMsg
            ["Latent input file [" ++ lc
              ++ "] not found. Please check the provided input path (-l, --latent)"]
            ∈ (predictChecks false true lc nf).messages) := by
  intro lex lc nf
  cases lex <;> simp [predictChecks]

/-- C6: evaluated at a dataframe with latent columns `latent_0`, `latent_1`
and a row containing a NaN entry, `load_dataset` returns the pair
`(1, 2)` — the first component is the integer literal `1` for every input
(never a cleaned dataset), and no row validation or NaN removal happens,
although the function's own comments announce `return dataset, num_latents`
and a data-validation step. -/
theorem c6_load_dataset_returns_literal_one_no_cleaning :
    load_dataset
      ⟨["relative_path", "latent_0", "latent_1", "depth"],
        [[some 1, some 2, some 3, none]]⟩ "latent_" = (1, 2)
    ∧ ∀ (df : DataFrame) (affix : String), (load_dataset df affix).1 = 1 := by
  exact ⟨by decide, fun df affix => rfl⟩

/-- C7: in both the CUDA and the CPU branch, the regressor reconstructed by
`predict_impl` is built with `input_dim` equal to the number of latent
columns of the input CSV (columns matching the `latent_` affix, as isolated
by the spec-modelled `PredictiveEngine.loadData`) and `output_dim` equal to
the length of the checkpoint's `linear_output.weight` entry. -/
theorem c7_regressor_dimension_invariants :
    ∀ (cudaAvailable : Bool) (csvCols : List String) (ck : ModelCheckpoint),
      builtRegressorDims cudaAvailable csvCols ck
        = (loadDataLatentCount csvCols "latent_", checkpointOutputSize ck) := by
  intro cuda csvCols ck
  cases cuda <;> rfl

/-- C9: every falsy configuration value of `predict_impl` is replaced by its
built-in default before use: `num_samples` of `None` or `0` yields 20 Monte
Carlo samples; a zero `scale_factor` yields a scaling factor of 1 (so a
user-supplied zero scale is never applied — multiplying by the resolved
factor is the identity); an empty `target_key` yields `"predicted"`; an
empty `latent_key` yields `"latent_"`; an empty `output_csv` yields a
timestamped name ending in `"_bnn_predictions.csv"`. -/
theorem c9_falsy_config_defaults :
    resolveKSamples none = 20
    ∧ resolveKSamples (some 0) = 20
    ∧ resolveScalingFactor 0 = 1
    ∧ (∀ x : ℚ, x * resolveScalingFactor 0 = x)
    ∧ resolveOutputKey "" = "predicted"
    ∧ resolveInputKey "" = "latent_"
    ∧ (∀ dateStr : String,
        ∃ p : String, resolveOutputCsv dateStr "" = p ++ "_bnn_predictions.csv") := by
  refine ⟨rfl, rfl, rfl, ?_, rfl, rfl, ?_⟩
  · intro x
    simp [resolveScalingFactor]
  · intro dateStr
    exact ⟨dateStr, rfl⟩

/-- Helper: the training loop increments the iteration counter once per
batch. -/
lemma trainLoop_iteration {P B : Type} (upd : P → ℚ → P) (fitLoss : B → ℕ → ℚ)
    (kl : ℚ) (nTrain : ℕ) (batches : List B) (s : TrainState P) :
    (trainLoop upd fitLoss kl nTrain batches s).iteration
      = s.iteration + batches.length := by
  induction batches generalizing s with
  | nil => simp [trainLoop]
  | cons b bs ih =>
      simp only [trainLoop, List.foldl_cons] at *
      rw [ih]
      simp [trainBatchStep]
      omega

/-- Helper: the parameters after the training loop are the fold of one
optimizer update per batch, each taken against that batch's sampled ELBO
loss. -/
lemma trainLoop_params {P B : Type} (upd : P → ℚ → P) (fitLoss : B → ℕ → ℚ)
    (kl : ℚ) (nTrain : ℕ) (batches : List B) (s : TrainState P) :
    (trainLoop upd fitLoss kl nTrain batches s).params
      = batches.foldl (fun p b => upd p (batchLoss fitLoss kl nTrain b)) s.params := by
  induction batches generalizing s with
  | nil => simp [trainLoop]
  | cons b bs ih =>
      simp only [trainLoop, List.foldl_cons] at *
      rw [ih]
      rfl

/-- C8: for every mini-batch of the training loop, the loss is the sampled
ELBO: the average over `sample_nbr = 3` stochastic forward passes of the fit
loss, with the KL complexity cost weighted by `1 / X_train.shape[0]` (one
over the number of training examples); and each batch step applies exactly
one optimizer update — the loop performs one update and one iteration
increment per batch. -/
theorem c8_elbo_loss_and_one_update_per_batch :
    ∀ (P B : Type) (upd : P → ℚ → P) (fitLoss : B → ℕ → ℚ) (kl : ℚ)
      (nTrain : ℕ) (batches : List B) (s : TrainState P),
      (∀ b : B, batchLoss fitLoss kl nTrain b
          = (fitLoss b 0 + fitLoss b 1 + fitLoss b 2) / 3
            + (1 / (nTrain : ℚ)) * kl)
      ∧ (trainLoop upd fitLoss kl nTrain batches s).iteration
          = s.iteration + batches.length
      ∧ (trainLoop upd fitLoss kl nTrain batches s).params
          = batches.foldl
              (fun p b => upd p (batchLoss fitLoss kl nTrain b)) s.params := by
  intro P B upd fitLoss kl nTrain batches s
  refine ⟨?_, trainLoop_iteration upd fitLoss kl nTrain batches s,
    trainLoop_params upd fitLoss kl nTrain batches s⟩
  intro b
  have h3 : List.range 3 = [0, 1, 2] := rfl
  simp only [batchLoss, sample_elbo, h3, List.map_cons, List.map_nil,
    List.sum_cons, List.sum_nil]
  push_cast
  ring

/-- C1: for every input row of the latent matrix, the prediction loop draws
exactly `k` stochastic forward passes (`rowSamples` has length `k`); the
per-row entry appended to `predicted` is the sample mean of those passes
times the scaling factor; and the per-row entry appended to `uncertainty` is
the standard deviation of those passes (the value `s` with `s ≥ 0` and
`s² = population variance over the K passes`, as computed by `np.std`) times
the same scaling factor.  `S` is the square root of the numerical library,
assumed correct on the variances it is applied to. -/
theorem c1_prediction_mean_and_std_scaled
    (m k rows : ℕ) (S : ℚ → ℚ) (draw : ℕ → ℕ → Fin m → ℚ)
    (scaling_factor : ℚ)
    (hS : ∀ r < rows, ∀ i : Fin m,
      0 ≤ S (npVar (rowSamples draw k r) i)
      ∧ S (npVar (rowSamples draw k r) i) ^ 2 = npVar (rowSamples draw k r) i) :
    (∀ r : ℕ, (rowSamples draw k r).length = k)
    ∧ (predictedRows draw k rows scaling_factor).length = rows
    ∧ (uncertaintyRows S draw k rows scaling_factor).length = rows
    ∧ (∀ r < rows,
        (predictedRows draw k rows scaling_factor)[r]?
          = some (fun i => npMean (rowSamples draw k r) i * scaling_factor)
        ∧ ∃ s : Fin m → ℚ,
            (∀ i : Fin m, 0 ≤ s i ∧ s i ^ 2 = npVar (rowSamples draw k r) i)
            ∧ (uncertaintyRows S draw k rows scaling_factor)[r]?
                = some (fun i => s i * scaling_factor)) := by
  refine ⟨?_, ?_, ?_, ?_⟩
  · intro r
    simp [rowSamples]
  · simp [predictedRows]
  · simp [uncertaintyRows]
  · intro r hr
    constructor
    · simp [predictedRows, List.getElem?_map, List.getElem?_range, hr]
    · refine ⟨fun i => S (npVar (rowSamples draw k r) i), fun i => hS r hr i, ?_⟩
      simp [uncertaintyRows, npStd, List.getElem?_map, List.getElem?_range, hr]

/-- C1 witness: one row, two passes both equal to 3, scaling factor 2; the
variance of the passes is 0, so `S := fun _ => 0` is a correct square root
there, the appended prediction is `3 * 2` and the appended uncertainty is
`0 * 2`. -/
theorem c1_prediction_mean_and_std_scaled_witness :
    (∀ r : ℕ, (@rowSamples 1 (fun _ _ _ => 3) 2 r).length = 2)
    ∧ (@predictedRows 1 (fun _ _ _ => 3) 2 1 2).length = 1
    ∧ (@uncertaintyRows 1 (fun _ => 0) (fun _ _ _ => 3) 2 1 2).length = 1
    ∧ (∀ r < 1,
        (@predictedRows 1 (fun _ _ _ => 3) 2 1 2)[r]?
          = some (fun i => npMean (@rowSamples 1 (fun _ _ _ => 3) 2 r) i * 2)
        ∧ ∃ s : Fin 1 → ℚ,
            (∀ i : Fin 1, 0 ≤ s i
              ∧ s i ^ 2 = npVar (@rowSamples 1 (fun _ _ _ => 3) 2 r) i)
            ∧ (@uncertaintyRows 1 (fun _ => 0) (fun _ _ _ => 3) 2 1 2)[r]?
                = some (fun i => s i * 2)) :=
  c1_prediction_mean_and_std_scaled 1 2 1 (fun _ => 0) (fun _ _ _ => 3) 2
    (by
      intro r hr i
      interval_cases r
      refine ⟨le_refl 0, ?_⟩
      show (0 : ℚ) ^ 2 = _
      simp [npVar, npMean, rowSamples, List.range_succ])

/-- C5: `evaluate_regression` draws `samples` stochastic forward passes, and
returns as its first value the fraction of target elements lying inside
`[mean - m*std, mean + m*std]` (elementwise over the predictions), together
with the one-sided fractions `(ci_upper >= y)` and `(ci_lower <= y)`; the
interval radius is `std_multiplier` times the standard deviation of the
passes (`S` applied to the Bessel-corrected variance, with `S` assumed
correct as a square root on those variances). -/
theorem c5_evaluate_regression_coverage_fractions
    (d samples : ℕ) (S : ℚ → ℚ) (draw : ℕ → Fin d → ℚ) (y : Fin d → ℚ)
    (std_multiplier : ℚ)
    (hS : ∀ i : Fin d, 0 ≤ S (torchVar (evalPreds draw samples) i)
      ∧ S (torchVar (evalPreds draw samples) i) ^ 2
          = torchVar (evalPreds draw samples) i) :
    (evalPreds draw samples).length = samples
    ∧ (evaluate_regression S draw y samples std_multiplier).1
        = ((Finset.univ.filter (fun i : Fin d =>
            ciLower S draw samples std_multiplier i ≤ y i
            ∧ y i ≤ ciUpper S draw samples std_multiplier i)).card : ℚ) / d
    ∧ (evaluate_regression S draw y samples std_multiplier).2.1
        = ((Finset.univ.filter (fun i : Fin d =>
            y i ≤ ciUpper S draw samples std_multiplier i)).card : ℚ) / d
    ∧ (evaluate_regression S draw y samples std_multiplier).2.2
        = ((Finset.univ.filter (fun i : Fin d =>
            ciLower S draw samples std_multiplier i ≤ y i)).card : ℚ) / d
    ∧ (∀ i : Fin d, 0 ≤ S (torchVar (evalPreds draw samples) i)
        ∧ S (torchVar (evalPreds draw samples) i) ^ 2
            = torchVar (evalPreds draw samples) i) := by
  refine ⟨by simp [evalPreds], ?_, ?_, ?_, hS⟩
  · simp [evaluate_regression, boolMean, Finset.sum_boole,
      Bool.and_eq_true, decide_eq_true_eq]
  · simp [evaluate_regression, boolMean, Finset.sum_boole, decide_eq_true_eq]
  · simp [evaluate_regression, boolMean, Finset.sum_boole, decide_eq_true_eq]

/-- C5 witness: one target element, two passes both equal to 5, target 5,
multiplier 3; the Bessel-corrected variance is 0, so `S := fun _ => 0` is a
correct square root there and all three returned fractions are defined. -/
theorem c5_evaluate_regression_coverage_fractions_witness :
    (@evalPreds 1 (fun _ _ => 5) 2).length = 2
    ∧ (@evaluate_regression 1 (fun _ => 0) (fun _ _ => 5) (fun _ => 5) 2 3).1
        = ((Finset.univ.filter (fun i : Fin 1 =>
            ciLower (fun _ => 0) (fun _ _ => 5) 2 3 i ≤ (fun _ => (5 : ℚ)) i
            ∧ (fun _ => (5 : ℚ)) i ≤ ciUpper (fun _ => 0) (fun _ _ => 5) 2 3 i)).card : ℚ) / 1
    ∧ (@evaluate_regression 1 (fun _ => 0) (fun _ _ => 5) (fun _ => 5) 2 3).2.1
        = ((Finset.univ.filter (fun i : Fin 1 =>
            (fun _ => (5 : ℚ)) i ≤ ciUpper (fun _ => 0) (fun _ _ => 5) 2 3 i)).card : ℚ) / 1
    ∧ (@evaluate_regression 1 (fun _ => 0) (fun _ _ => 5) (fun _ => 5) 2 3).2.2
        = ((Finset.univ.filter (fun i : Fin 1 =>
            ciLower (fun _ => 0) (fun _ _ => 5) 2 3 i ≤ (fun _ => (5 : ℚ)) i)).card : ℚ) / 1
    ∧ (∀ i : Fin 1, 0 ≤ (fun _ => (0 : ℚ)) (torchVar (@evalPreds 1 (fun _ _ => 5) 2) i)
        ∧ (fun _ => (0 : ℚ)) (torchVar (@evalPreds 1 (fun _ _ => 5) 2) i) ^ 2
            = torchVar (@evalPreds 1 (fun _ _ => 5) 2) i) :=
  c5_evaluate_regression_coverage_fractions 1 2 (fun _ => 0) (fun _ _ => 5)
    (fun _ => 5) 3
    (by
      intro i
      refine ⟨le_refl 0, ?_⟩
      show (0 : ℚ) ^ 2 = _
      simp [torchVar, npMean, evalPreds, List.range_succ])

/-- C4: the exported dataframe carries, for every output dimension
`i < output_size`, one prediction column named `pred_<key>_<i>` and one
uncertainty column named `std_<key>_<i>` (with their computed values), and
every original input column that does not match the latent regex — the
original row metadata — is carried over; provided the generated column names
do not themselves match the latent-key regex that the final drop applies. -/
theorem c4_output_csv_has_pred_and_std_columns
    (α : Type) (input_key output_key : String) (inputCols : List (DCol α))
    (predicted uncertainty : ℕ → List α) (output_size : ℕ)
    (hkeys : ∀ i < output_size,
      strContains (predColName output_key i) input_key = false
      ∧ strContains (stdColName output_key i) input_key = false) :
    (∀ i < output_size,
      (⟨predColName output_key i, predicted i⟩ : DCol α)
          ∈ outputFrame input_key output_key inputCols predicted uncertainty output_size
      ∧ (⟨stdColName output_key i, uncertainty i⟩ : DCol α)
          ∈ outputFrame input_key output_key inputCols predicted uncertainty output_size)
    ∧ (∀ c ∈ inputCols, strContains c.name input_key = false →
        c ∈ outputFrame input_key output_key inputCols predicted uncertainty output_size) := by
  constructor
  · intro i hi
    obtain ⟨hp, hs⟩ := hkeys i hi
    constructor
    · simp only [outputFrame, dropMatching, List.mem_filter, List.mem_append]
      refine ⟨Or.inl (Or.inr ?_), by simp [hp]⟩
      simp only [predCols, List.mem_map, List.mem_range]
      exact ⟨i, hi, rfl⟩
    · simp only [outputFrame, dropMatching, List.mem_filter, List.mem_append]
      refine ⟨Or.inr ?_, by simp [hs]⟩
      simp only [stdCols, List.mem_map, List.mem_range]
      exact ⟨i, hi, rfl⟩
  · intro c hc hnc
    simp only [outputFrame, dropMatching, List.mem_filter, List.mem_append]
    exact ⟨Or.inl (Or.inl hc), by simp [hnc]⟩

/-- C4 witness: three input columns (one latent), default keys, one output
dimension. -/
theorem c4_output_csv_has_pred_and_std_columns_witness :
    (∀ i < 1,
      (⟨predColName "predicted" i, (fun _ => [(7 : ℚ)]) i⟩ : DCol ℚ)
          ∈ outputFrame "latent_" "predicted"
              [⟨"relative_path", []⟩, ⟨"northing", []⟩, ⟨"latent_0", []⟩]
              (fun _ => [(7 : ℚ)]) (fun _ => [(1 : ℚ)]) 1
      ∧ (⟨stdColName "predicted" i, (fun _ => [(1 : ℚ)]) i⟩ : DCol ℚ)
          ∈ outputFrame "latent_" "predicted"
              [⟨"relative_path", []⟩, ⟨"northing", []⟩, ⟨"latent_0", []⟩]
              (fun _ => [(7 : ℚ)]) (fun _ => [(1 : ℚ)]) 1)
    ∧ (∀ c ∈ [(⟨"relative_path", []⟩ : DCol ℚ), ⟨"northing", []⟩, ⟨"latent_0", []⟩],
        strContains c.name "latent_" = false →
        c ∈ outputFrame "latent_" "predicted"
              [⟨"relative_path", []⟩, ⟨"northing", []⟩, ⟨"latent_0", []⟩]
              (fun _ => [(7 : ℚ)]) (fun _ => [(1 : ℚ)]) 1) :=
  c4_output_csv_has_pred_and_std_columns ℚ "latent_" "predicted"
    [⟨"relative_path", []⟩, ⟨"northing", []⟩, ⟨"latent_0", []⟩]
    (fun _ => [(7 : ℚ)]) (fun _ => [(1 : ℚ)]) 1 (by decide)

/-- C10: the exported dataframe never contains a column whose name matches
the latent-key regex — every matching input column is dropped — while every
non-matching input column is carried over unchanged (same name and values)
alongside the appended prediction and uncertainty columns (whose generated
names are assumed not to match the latent-key regex). -/
theorem c10_latent_columns_dropped_metadata_preserved
    (α : Type) (input_key output_key : String) (inputCols : List (DCol α))
    (predicted uncertainty : ℕ → List α) (output_size : ℕ)
    (hkeys : ∀ i < output_size,
      strContains (predColName output_key i) input_key = false
      ∧ strContains (stdColName output_key i) input_key = false) :
    (∀ c ∈ outputFrame input_key output_key inputCols predicted uncertainty output_size,
        strContains c.name input_key = false)
    ∧ (∀ c ∈ inputCols, strContains c.name input_key = true →
        c ∉ outputFrame input_key output_key inputCols predicted uncertainty output_size)
    ∧ (∀ c ∈ inputCols, strContains c.name input_key = false →
        c ∈ outputFrame input_key output_key inputCols predicted uncertainty output_size)
    ∧ (∀ i < output_size,
        (⟨predColName output_key i, predicted i⟩ : DCol α)
            ∈ outputFrame input_key output_key inputCols predicted uncertainty output_size
        ∧ (⟨stdColName output_key i, uncertainty i⟩ : DCol α)
            ∈ outputFrame input_key output_key inputCols predicted uncertainty output_size) := by
  refine ⟨?_, ?_, ?_, ?_⟩
  · intro c hc
    have := (List.mem_filter.mp hc).2
    simpa using this
  · intro c _ hmatch hmem
    have := (List.mem_filter.mp hmem).2
    simp [hmatch] at this
  · intro c hc hnc
    simp only [outputFrame, dropMatching, List.mem_filter, List.mem_append]
    exact ⟨Or.inl (Or.inl hc), by simp [hnc]⟩
  · intro i hi
    obtain ⟨hp, hs⟩ := hkeys i hi
    constructor
    · simp only [outputFrame, dropMatching, List.mem_filter, List.mem_append]
      refine ⟨Or.inl (Or.inr ?_), by simp [hp]⟩
      simp only [predCols, List.mem_map, List.mem_range]
      exact ⟨i, hi, rfl⟩
    · simp only [outputFrame, dropMatching, List.mem_filter, List.mem_append]
      refine ⟨Or.inr ?_, by simp [hs]⟩
      simp only [stdCols, List.mem_map, List.mem_range]
      exact ⟨i, hi, rfl⟩

/-- C10 witness: two input columns of which one matches the latent key
`h_`, custom output key, one output dimension. -/
theorem c10_latent_columns_dropped_metadata_preserved_witness :
    (∀ c ∈ outputFrame "h_" "vs30" [(⟨"uuid", [(2 : ℚ)]⟩ : DCol ℚ), ⟨"h_0", [(3 : ℚ)]⟩]
          (fun _ => [(4 : ℚ)]) (fun _ => [(5 : ℚ)]) 1,
        strContains c.name "h_" = false)
    ∧ (∀ c ∈ [(⟨"uuid", [(2 : ℚ)]⟩ : DCol ℚ), ⟨"h_0", [(3 : ℚ)]⟩],
        strContains c.name "h_" = true →
        c ∉ outputFrame "h_" "vs30" [(⟨"uuid", [(2 : ℚ)]⟩ : DCol ℚ), ⟨"h_0", [(3 : ℚ)]⟩]
              (fun _ => [(4 : ℚ)]) (fun _ => [(5 : ℚ)]) 1)
    ∧ (∀ c ∈ [(⟨"uuid", [(2 : ℚ)]⟩ : DCol ℚ), ⟨"h_0", [(3 : ℚ)]⟩],
        strContains c.name "h_" = false →
        c ∈ outputFrame "h_" "vs30" [(⟨"uuid", [(2 : ℚ)]⟩ : DCol ℚ), ⟨"h_0", [(3 : ℚ)]⟩]
              (fun _ => [(4 : ℚ)]) (fun _ => [(5 : ℚ)]) 1)
    ∧ (∀ i < 1,
        (⟨predColName "vs30" i, (fun _ => [(4 : ℚ)]) i⟩ : DCol ℚ)
            ∈ outputFrame "h_" "vs30" [(⟨"uuid", [(2 : ℚ)]⟩ : DCol ℚ), ⟨"h_0", [(3 : ℚ)]⟩]
                (fun _ => [(4 : ℚ)]) (fun _ => [(5 : ℚ)]) 1
        ∧ (⟨stdColName "vs30" i, (fun _ => [(5 : ℚ)]) i⟩ : DCol ℚ)
            ∈ outputFrame "h_" "vs30" [(⟨"uuid", [(2 : ℚ)]⟩ : DCol ℚ), ⟨"h_0", [(3 : ℚ)]⟩]
                (fun _ => [(4 : ℚ)]) (fun _ => [(5 : ℚ)]) 1) :=
  c10_latent_columns_dropped_metadata_preserved ℚ "h_" "vs30"
    [⟨"uuid", [(2 : ℚ)]⟩, ⟨"h_0", [(3 : ℚ)]⟩]
    (fun _ => [(4 : ℚ)]) (fun _ => [(5 : ℚ)]) 1 (by decide)
